import Mathlib

/-!
Verification of the wr release tool against its specification.

The definitions below are a shallow embedding of the core logic of the
repository: the semantic-version resolver (src/release.rs, backed by the
external semver crate), the repository sync-status evaluator and its gate
(src/system.rs), the release publisher (src/release.rs, src/git.rs), the
production-release confirmation flow (src/release.rs) and the deployment
orchestrator (src/release.rs).  External effects (git, the GitLab API, the
interactive prompt) are passed in as explicit data: query results become
function-valued parameters and the commands or refs a function would send
to the outside world are returned alongside its result.
-/

set_option maxRecDepth 4000

namespace Wr

/-- Semantic version as stored by the external semver crate that
Release::get_last_tag relies on: numeric major/minor/patch components plus
the raw pre-release and build-metadata identifier strings (both empty when
absent). -/
structure Version where
  major : Nat
  minor : Nat
  patch : Nat
  pre : String
  build : String
deriving DecidableEq, Repr

/-- Greedily take ascii digits from the front of a character list,
returning the digits and the unconsumed rest. -/
def takeDigits : List Char → List Char × List Char
  | [] => ([], [])
  | c :: cs =>
    if c.isDigit then
      let r := takeDigits cs
      (c :: r.1, r.2)
    else ([], c :: cs)

/-- Numeric value of a digit string, most significant digit first. -/
def digitsToNat (ds : List Char) : Nat :=
  ds.foldl (fun n c => n * 10 + (c.toNat - 48)) 0

/-- Parse one numeric version component the way the semver crate does: at
least one digit, no leading zero unless the component is exactly "0", and
the value must fit in a u64.  Returns the value and the unconsumed
input. -/
def parseNumeric (s : List Char) : Option (Nat × List Char) :=
  match takeDigits s with
  | ([], _) => none
  | (c :: rest, r) =>
    if c = '0' ∧ rest ≠ [] then none
    else if digitsToNat (c :: rest) < 2 ^ 64 then some (digitsToNat (c :: rest), r)
    else none

/-- Characters allowed in pre-release and build identifiers: ascii
alphanumerics and the hyphen. -/
def isIdentChar (c : Char) : Bool :=
  c.isAlpha || c.isDigit || c = '-'

/-- Take the maximal run of identifier or dot characters from the front of
a character list. -/
def takeIdentChars : List Char → List Char × List Char
  | [] => ([], [])
  | c :: cs =>
    if isIdentChar c || c = '.' then
      let r := takeIdentChars cs
      (c :: r.1, r.2)
    else ([], c :: cs)

/-- Split a character list on dots; like Rust's str::split, an empty input
yields one empty segment. -/
def splitDot : List Char → List (List Char)
  | [] => [[]]
  | c :: cs =>
    if c = '.' then [] :: splitDot cs
    else
      match splitDot cs with
      | [] => [[c]]
      | s :: ss => (c :: s) :: ss

/-- Validity of one pre-release identifier: nonempty, identifier
characters only, and an all-digit identifier must not have a leading
zero. -/
def validPreId (s : List Char) : Bool :=
  !s.isEmpty && s.all isIdentChar &&
    !(s.all Char.isDigit && decide (s.headD ' ' = '0') && decide (s.length > 1))

/-- Validity of one build-metadata identifier: nonempty, identifier
characters only (leading zeros are allowed here). -/
def validBuildId (s : List Char) : Bool :=
  !s.isEmpty && s.all isIdentChar

/-- Parse the optional "-PRERELEASE" and "+BUILD" tail of a version
string, as the semver crate does after the three numeric components. -/
def parseTail (major minor patch : Nat) (r : List Char) : Option Version :=
  match r with
  | [] => some ⟨major, minor, patch, "", ""⟩
  | '-' :: rest =>
    let p := takeIdentChars rest
    if (splitDot p.1).all validPreId then
      match p.2 with
      | [] => some ⟨major, minor, patch, String.mk p.1, ""⟩
      | '+' :: brest =>
        let b := takeIdentChars brest
        if b.2 = [] ∧ (splitDot b.1).all validBuildId then
          some ⟨major, minor, patch, String.mk p.1, String.mk b.1⟩
        else none
      | _ => none
    else none
  | '+' :: brest =>
    let b := takeIdentChars brest
    if b.2 = [] ∧ (splitDot b.1).all validBuildId then
      some ⟨major, minor, patch, "", String.mk b.1⟩
    else none
  | _ => none

/-- Version.parse of the semver crate, the parser Release::get_last_tag
applies to every tag name: strict "MAJOR.MINOR.PATCH" with optional
"-PRERELEASE" and "+BUILD", no leading "v", no whitespace, nothing
trailing. -/
def Version.parse (s : String) : Option Version :=
  match parseNumeric s.data with
  | none => none
  | some (major, r1) =>
    match r1 with
    | '.' :: r1' =>
      match parseNumeric r1' with
      | none => none
      | some (minor, r2) =>
        match r2 with
        | '.' :: r2' =>
          match parseNumeric r2' with
          | none => none
          | some (patch, r3) => parseTail major minor patch r3
        | _ => none
    | _ => none

/-- Byte-lexicographic comparison of identifier strings (Rust's str
ordering restricted to ascii). -/
def lexCmp : List Char → List Char → Ordering
  | [], [] => .eq
  | [], _ :: _ => .lt
  | _ :: _, [] => .gt
  | a :: as, b :: bs =>
    if a < b then .lt else if b < a then .gt else lexCmp as bs

/-- Comparison of two pre-release identifiers, as in the semver crate:
numeric identifiers compare numerically (length first, since they carry no
leading zeros), numeric sorts below alphanumeric, alphanumerics compare
lexically. -/
def preIdCmp (a b : List Char) : Ordering :=
  match a.all Char.isDigit, b.all Char.isDigit with
  | true, true => (compare a.length b.length).then (lexCmp a b)
  | true, false => .lt
  | false, true => .gt
  | false, false => lexCmp a b

/-- Comparison of two build-metadata identifiers, as in the semver crate:
all-digit identifiers may carry leading zeros, so they compare by the
zero-stripped value first and by original length last. -/
def buildIdCmp (a b : List Char) : Ordering :=
  match a.all Char.isDigit, b.all Char.isDigit with
  | true, true =>
    let a2 := a.dropWhile (fun c => decide (c = '0'))
    let b2 := b.dropWhile (fun c => decide (c = '0'))
    ((compare a2.length b2.length).then (lexCmp a2 b2)).then (compare a.length b.length)
  | true, false => .lt
  | false, true => .gt
  | false, false => lexCmp a b

/-- Pairwise comparison of dot-separated identifier lists; a list that
runs out first sorts below. -/
def idsCmp (f : List Char → List Char → Ordering) :
    List (List Char) → List (List Char) → Ordering
  | [], [] => .eq
  | [], _ :: _ => .lt
  | _ :: _, [] => .gt
  | a :: as, b :: bs => (f a b).then (idsCmp f as bs)

/-- Pre-release comparison of the semver crate: an absent pre-release
sorts above any present one; otherwise compare identifier lists. -/
def preCmp (a b : String) : Ordering :=
  if a = "" then (if b = "" then .eq else .gt)
  else if b = "" then .lt
  else idsCmp preIdCmp (splitDot a.data) (splitDot b.data)

/-- Build-metadata comparison of the semver crate (it participates in the
crate's total order even though semver precedence ignores it). -/
def buildCmp (a b : String) : Ordering :=
  idsCmp buildIdCmp (splitDot a.data) (splitDot b.data)

/-- Total order on versions as implemented by the semver crate: major,
minor, patch, pre-release, then build metadata. -/
def Version.cmp (x y : Version) : Ordering :=
  (compare x.major y.major).then
    ((compare x.minor y.minor).then
      ((compare x.patch y.patch).then
        ((preCmp x.pre y.pre).then (buildCmp x.build y.build))))

/-- Iterator::max_by as used in Release::get_last_tag: fold over the list
keeping the later element when the comparison does not put the
accumulator strictly above it. -/
def max_by_semver (l : List Version) : Option Version :=
  l.foldl
    (fun acc v =>
      match acc with
      | none => some v
      | some m => if Version.cmp m v = .gt then some m else some v)
    none

/-- Error type of wr (src/error.rs).  Payloads carried by some variants
(underlying causes, the branch name, host and token) are omitted: the
claims only distinguish the variants. -/
inductive WrError where
  | GitNotFound
  | GitFlowNotFound
  | GitFlowWrongVersion
  | GitFlowNotInitialized
  | RepositoryDirty
  | RepositoryUpToDate
  | RepositoryNeedPull
  | RepositoryDiverged
  | NotInGitRepository
  | WrongBranch
  | GitlabConnectionFailed
  | NoTagFound
  | PipelineNotFound
  | UserCancelled
  | UserAborted
  | CommandFailed
  | GitOperationFailed
  | External
deriving DecidableEq, Repr

/-- Increment kind (src/semver_type.rs). -/
inductive SemverType where
  | Major
  | Minor
  | Patch
deriving DecidableEq, Repr

/-- Release::get_last_tag (src/release.rs lines 38-50): parse every tag
name as a semantic version, silently dropping unparsable ones, and take
the maximum; NoTagFound when no tag parses. -/
def get_last_tag (tags : List String) : Except WrError Version :=
  match max_by_semver (tags.filterMap Version.parse) with
  | some v => .ok v
  | none => .error .NoTagFound

/-- Field bump applied by Release::get_next_tag to the latest tag
(src/release.rs lines 60-71): Major resets minor and patch, Minor resets
patch, Patch touches nothing else; pre-release and build fields are left
as they were.  The incremented fields are u64 in the source, so the
`+= 1` is addition modulo 2^64 (the wrapping semantics of the release
profile at u64::MAX). -/
def bump_version (t : SemverType) (v : Version) : Version :=
  match t with
  | .Major => { v with major := (v.major + 1) % 2 ^ 64, minor := 0, patch := 0 }
  | .Minor => { v with minor := (v.minor + 1) % 2 ^ 64, patch := 0 }
  | .Patch => { v with patch := (v.patch + 1) % 2 ^ 64 }

/-- Release::get_next_tag (src/release.rs lines 53-79): bump the latest
tag according to the semver type, or fall back to version 1.0.0 when no
tag was found; always returns Ok. -/
def get_next_tag (t : SemverType) (tags : List String) : Except WrError Version :=
  let next : Version :=
    match get_last_tag tags with
    | .ok last => bump_version t last
    | .error _ => ⟨1, 0, 0, "", ""⟩
  .ok next

/-- Repository sync status (src/repository_status.rs). -/
inductive RepositoryStatus where
  | UpToDate
  | NeedToPull
  | NeedToPush
  | Diverged
deriving DecidableEq, Repr

/-- Classification step of System::get_repository_status (src/system.rs
lines 133-147): compare the local head, the tracked remote head and their
merge base.  Commit identifiers are opaque comparable handles, modelled
as naturals. -/
def evaluate_sync_status (local_id remote_id base_id : Nat) : RepositoryStatus :=
  if local_id = remote_id then .UpToDate
  else if local_id = base_id then .NeedToPull
  else if remote_id = base_id then .NeedToPush
  else .Diverged

/-- Restatement of the spec's rule for SyncStatusEvaluator.evaluate,
written from the spec's words for comparison with the code's
classification. -/
def sync_status_spec (local_id remote_id base_id : Nat) : RepositoryStatus :=
  if local_id = remote_id then .UpToDate
  else if local_id = base_id then .NeedToPull
  else if remote_id = base_id then .NeedToPush
  else .Diverged

/-- Gate applied to the classified status by System::get_repository_status
(src/system.rs lines 149-161), with the error messages used there.  Only
NeedToPush, or UpToDate under the force flag, lets the run continue. -/
def sync_status_gate (force : Bool) (status : RepositoryStatus) : Except String Unit :=
  match status with
  | .UpToDate =>
    if force then .ok ()
    else .error "Repository is up-to-date, nothing to do."
  | .NeedToPull => .error "Repository need to be pulled first."
  | .Diverged => .error "Branch have diverged, please fix the conflict first."
  | .NeedToPush => .ok ()

/-- Success test for the gate's result. -/
def gate_ok (r : Except String Unit) : Bool :=
  match r with
  | .ok _ => true
  | .error _ => false

/-- Target environment (src/environment.rs). -/
inductive Environment where
  | Production
  | Staging
deriving DecidableEq, Repr

/-- Environment::get_deploy_job_name (src/environment.rs lines 17-22). -/
def Environment.get_deploy_job_name : Environment → String
  | .Production => "deploy_prod"
  | .Staging => "deploy_staging"

/-- Environment::get_pipeline_ref (src/environment.rs lines 25-30),
parameterised by the configured gitflow branch names. -/
def Environment.get_pipeline_ref (master develop : String) : Environment → String
  | .Production => master
  | .Staging => develop

/-- git::ref_by_branch (src/git.rs lines 15-17). -/
def ref_by_branch (branch : String) : String :=
  "refs/heads/" ++ branch ++ ":refs/heads/" ++ branch

/-- git::ref_by_tag (src/git.rs lines 20-22). -/
def ref_by_tag (tag : String) : String :=
  "refs/tags/" ++ tag ++ ":refs/tags/" ++ tag

/-- git::get_gitflow_branches_refs (src/git.rs lines 119-124): the refs of
the two long-lived branches, master first. -/
def get_gitflow_branches_refs (master develop : String) : List String :=
  [ref_by_branch master, ref_by_branch develop]

/-- Release::push_staging (src/release.rs lines 151-154), as the list of
refs it sends to the remote: only the develop branch. -/
def push_staging (develop : String) : List String :=
  [ref_by_branch develop]

/-- Release::push_production (src/release.rs lines 157-180), as the list
of refs it sends to the remote: both gitflow branches followed by every
local tag. -/
def push_production (master develop : String) (tags : List String) : List String :=
  get_gitflow_branches_refs master develop ++ tags.map ref_by_tag

/-- Release::push (src/release.rs lines 183-190): dispatch on the
environment. -/
def push (env : Environment) (master develop : String) (tags : List String) : List String :=
  match env with
  | .Production => push_production master develop tags
  | .Staging => push_staging develop

/-- Rendering of a version, as the semver crate's Display used for the
git-flow command arguments. -/
def Version.render (v : Version) : String :=
  toString v.major ++ "." ++ toString v.minor ++ "." ++ toString v.patch ++
    (if v.pre = "" then "" else "-" ++ v.pre) ++
    (if v.build = "" then "" else "+" ++ v.build)

/-- Release::create_production_release (src/release.rs lines 94-133).  The
interactive confirmation answer is passed in (some true = confirmed, some
false = declined, none = dismissed without an answer) and the external
git commands the function runs are returned next to its result, so that
an empty command list states that the repository was left untouched. -/
def create_production_release (tags : List String) (t : SemverType) (develop : String)
    (answer : Option Bool) : Except WrError Unit × List (List String) :=
  match get_next_tag t tags with
  | .error e => (.error e, [])
  | .ok next =>
    match answer with
    | some true =>
      (.ok (),
        [["git", "flow", "release", "start", next.render],
         ["git", "flow", "release", "finish", "-m", next.render, next.render],
         ["git", "checkout", develop]])
    | some false => (.error .UserCancelled, [])
    | none => (.error .UserAborted, [])

/-- Release::create (src/release.rs lines 136-141): production asks for
confirmation and cuts the release, staging does nothing. -/
def create (env : Environment) (tags : List String) (t : SemverType) (develop : String)
    (answer : Option Bool) : Except WrError Unit × List (List String) :=
  match env with
  | .Production => create_production_release tags t develop answer
  | .Staging => (.ok (), [])

/-- Job status state machine (src/pipeline.rs lines 15-50). -/
inductive StatusState where
  | Created
  | WaitingForResource
  | Preparing
  | Pending
  | Running
  | Success
  | Failed
  | Canceled
  | Skipped
  | Manual
  | Scheduled
deriving DecidableEq, Repr

/-- Pipeline snapshot (src/pipeline.rs lines 4-13).  The read-only
metadata fields (ref, sha, web_url, timestamps) are omitted: the embedded
logic only reads id and status. -/
structure Pipeline where
  id : Nat
  status : String
deriving DecidableEq, Repr

/-- Job snapshot (src/job.rs lines 5-13). -/
structure Job where
  id : Nat
  status : StatusState
  name : String
deriving DecidableEq, Repr

/-- Match of a needle against the start of a haystack. -/
def headMatch : List Char → List Char → Bool
  | [], _ => true
  | _ :: _, [] => false
  | a :: as, b :: bs => decide (a = b) && headMatch as bs

/-- Search for a needle anywhere in a haystack. -/
def findSub (needle : List Char) : List Char → Bool
  | [] => needle.isEmpty
  | c :: cs => headMatch needle (c :: cs) || findSub needle cs

/-- str::contains with a string pattern: substring containment, used by
the deploy-job selection on job names. -/
def str_contains (haystack needle : String) : Bool :=
  findSub needle.data haystack.data

/-- One query of the discovery loop of Release::get_last_pipeline_id:
the first pipeline in the response whose status is "skipped" or
"running" (src/release.rs lines 224-229). -/
def find_matching_pipeline (ps : List Pipeline) : Option Pipeline :=
  ps.find? (fun p => decide (p.status = "skipped") || decide (p.status = "running"))

/-- While loop of Release::get_last_pipeline_id (src/release.rs lines
210-232): last_pipeline_id starts at 0, the loop runs while it is still 0
and fewer than 60 polls have happened; polls k is the pipeline list
returned by the k-th query (the one-second sleep before each query is not
modelled).  The fuel argument carries the remaining iterations, 60 at the
top-level call. -/
def pipeline_poll_loop (polls : Nat → List Pipeline) (counter last : Nat) : Nat → Nat
  | 0 => last
  | fuel + 1 =>
    if last ≠ 0 then last
    else
      let next :=
        match find_matching_pipeline (polls counter) with
        | some p => p.id
        | none => last
      pipeline_poll_loop polls (counter + 1) next fuel

/-- Release::get_last_pipeline_id (src/release.rs lines 204-239): run the
bounded polling loop; if no matching pipeline was found after 60
attempts, fail with PipelineNotFound. -/
def get_last_pipeline_id (polls : Nat → List Pipeline) : Except WrError Nat :=
  let last := pipeline_poll_loop polls 0 0 60
  if last = 0 then .error .PipelineNotFound else .ok last

/-- Remote-service responses consumed by Release::deploy: the successive
pipeline-query results, the job list of each pipeline id, and the
successive re-fetches of the selected job's status, indexed by fetch
count; the environment chooses the deploy job name.  API transport
failures and the play request's failure are not modelled: every call
returns its value. -/
structure DeployWorld where
  env : Environment
  polls : Nat → List Pipeline
  pipeline_jobs : Nat → List Job
  job_fetch : Nat → StatusState

/-- Wait of Release::deploy while the selected job still has status
Created (src/release.rs lines 273-277).  The source loop is unbounded;
fuel bounds it here and none marks fuel running out while the status is
still Created.  Returns the index of the next job fetch. -/
def wait_while_created (fetch : Nat → StatusState) (t : Nat) (st : StatusState) :
    Nat → Option Nat
  | 0 => if st = .Created then none else some t
  | fuel + 1 =>
    if st = .Created then wait_while_created fetch (t + 1) (fetch t) fuel
    else some t

/-- Terminal-state wait of Release::deploy (src/release.rs lines
292-295): poll the job until its status is Failed or Success.  The source
loop is unbounded; fuel bounds it here. -/
def wait_terminal (fetch : Nat → StatusState) (t : Nat) (st : StatusState) :
    Nat → Option StatusState
  | 0 => if st = .Failed ∨ st = .Success then some st else none
  | fuel + 1 =>
    if st = .Failed ∨ st = .Success then some st
    else wait_terminal fetch (t + 1) (fetch t) fuel

/-- Release::deploy (src/release.rs lines 242-306): locate the pipeline,
select the first job whose name contains the environment's deploy job
name and whose status is not yet Success or Failed, wait out its Created
phase, play it, and await a terminal state.  A failed pipeline lookup is
destructured with an `if let Ok` and falls through to Ok.  Returns none
when one of the unbounded waits exceeds the fuel, otherwise the result
together with the ids of the jobs that were played. -/
def deploy (w : DeployWorld) (fuel : Nat) : Option (Except WrError Unit × List Nat) :=
  match get_last_pipeline_id w.polls with
  | .error _ => some (.ok (), [])
  | .ok pid =>
    let jobs := w.pipeline_jobs pid
    let djn := w.env.get_deploy_job_name
    match jobs.find? (fun j =>
        str_contains j.name djn &&
        decide (j.status ≠ StatusState.Failed) &&
        decide (j.status ≠ StatusState.Success)) with
    | none => some (.ok (), [])
    | some job =>
      match wait_while_created w.job_fetch 0 job.status fuel with
      | none => none
      | some t =>
        match wait_terminal w.job_fetch (t + 1) (w.job_fetch t) fuel with
        | none => none
        | some _ => some (.ok (), [job.id])

/-! Theorems. -/

/-- Filtering a tag list down to its parsable tags does not change the
parsed versions. -/
theorem filterMap_parse_filter (tags : List String) :
    (tags.filter fun s => (Version.parse s).isSome).filterMap Version.parse
      = tags.filterMap Version.parse := by
  induction tags with
  | nil => rfl
  | cons a l ih =>
    cases h : Version.parse a <;>
      simp [List.filter_cons, List.filterMap_cons, h, ih]

/-- A tag ref and a branch ref are never the same string: they differ at
character index 5 ("t" against "h"). -/
theorem ref_tag_ne_branch (t b : String) : ref_by_tag t ≠ ref_by_branch b := by
  intro h
  have hd : ("refs/tags/").data ++ (t.data ++ ((":refs/tags/").data ++ t.data))
      = ("refs/heads/").data ++ (b.data ++ ((":refs/heads/").data ++ b.data)) := by
    have h2 := congrArg String.data h
    simp only [ref_by_tag, ref_by_branch, String.data_append, List.append_assoc] at h2
    exact h2
  have h5 : (("refs/tags/").data ++ (t.data ++ ((":refs/tags/").data ++ t.data))).getD 5 ' '
      = (("refs/heads/").data ++ (b.data ++ ((":refs/heads/").data ++ b.data))).getD 5 ' ' := by
    rw [hd]
  rw [List.getD_append _ _ _ _ (by decide), List.getD_append _ _ _ _ (by decide)] at h5
  exact absurd h5 (by decide)

/-- C2 (amended): the sync-status evaluation agrees with the spec's
priority chain — UpToDate when local equals remote, otherwise NeedToPull
when local equals the merge base, otherwise NeedToPush when remote equals
the merge base, otherwise Diverged; in particular evaluate a a a is
UpToDate, evaluate l r l with l distinct from r is NeedToPull, evaluate
l r r with l distinct from r is NeedToPush, and evaluate with local
distinct from remote and a merge base distinct from both is Diverged. -/
theorem c2_sync_status_classification :
    (∀ l r b : Nat, evaluate_sync_status l r b = sync_status_spec l r b) ∧
    (∀ a : Nat, evaluate_sync_status a a a = .UpToDate) ∧
    (∀ l r : Nat, l ≠ r → evaluate_sync_status l r l = .NeedToPull) ∧
    (∀ l r : Nat, l ≠ r → evaluate_sync_status l r r = .NeedToPush) ∧
    (∀ l r b : Nat, l ≠ r → b ≠ l → b ≠ r → evaluate_sync_status l r b = .Diverged) := by
  refine ⟨fun l r b => rfl, fun a => by simp [evaluate_sync_status], ?_, ?_, ?_⟩
  · intro l r h
    simp [evaluate_sync_status, h]
  · intro l r h
    simp [evaluate_sync_status, h]
  · intro l r b h hbl hbr
    simp [evaluate_sync_status, h, Ne.symm hbl, Ne.symm hbr]

/-- C2 witness: the classification at concrete commit identifiers. -/
theorem c2_sync_status_classification_witness :
    evaluate_sync_status 0 1 0 = RepositoryStatus.NeedToPull ∧
    evaluate_sync_status 0 1 1 = RepositoryStatus.NeedToPush ∧
    evaluate_sync_status 0 1 2 = RepositoryStatus.Diverged :=
  ⟨c2_sync_status_classification.2.2.1 0 1 (by decide),
   c2_sync_status_classification.2.2.2.1 0 1 (by decide),
   c2_sync_status_classification.2.2.2.2 0 1 2 (by decide) (by decide) (by decide)⟩

/-- C2 counterexample: with local = remote = 0 and merge base 1 — a merge
base distinct from both — the evaluation returns UpToDate, not Diverged
as the claim's final clause demands. -/
theorem c2_sync_status_counterexample :
    evaluate_sync_status 0 0 1 = RepositoryStatus.UpToDate ∧
    RepositoryStatus.UpToDate ≠ RepositoryStatus.Diverged := by
  decide

/-- C3: the release gate lets the run proceed exactly when the status is
NeedToPush, or when it is UpToDate and the force flag is set; NeedToPull
and Diverged always stop the run, and UpToDate without force stops it. -/
theorem c3_release_gate (force : Bool) (status : RepositoryStatus) :
    gate_ok (sync_status_gate force status) = true ↔
      (status = .NeedToPush ∨ (status = .UpToDate ∧ force = true)) := by
  cases status <;> cases force <;> simp [sync_status_gate, gate_ok]

/-- C3 witness: NeedToPush proceeds even without force. -/
theorem c3_release_gate_witness :
    gate_ok (sync_status_gate false RepositoryStatus.NeedToPush) = true :=
  (c3_release_gate false RepositoryStatus.NeedToPush).mpr (Or.inl rfl)

/-- C4 (amended): when the maximum valid tag is a bare triple T each of
whose fields can be incremented without overflowing a u64, the next
version is (T.major+1, 0, 0) for Major, (T.major, T.minor+1, 0) for
Minor and (T.major, T.minor, T.patch+1) for Patch. -/
theorem c4_next_version_bump (tags : List String) (T : Version)
    (h : get_last_tag tags = .ok T) (hp : T.pre = "") (hb : T.build = "")
    (hmaj : T.major + 1 < 2 ^ 64) (hmin : T.minor + 1 < 2 ^ 64)
    (hpat : T.patch + 1 < 2 ^ 64) :
    get_next_tag .Major tags = .ok ⟨T.major + 1, 0, 0, "", ""⟩ ∧
    get_next_tag .Minor tags = .ok ⟨T.major, T.minor + 1, 0, "", ""⟩ ∧
    get_next_tag .Patch tags = .ok ⟨T.major, T.minor, T.patch + 1, "", ""⟩ := by
  obtain ⟨maj, mi, pa, pre, bu⟩ := T
  dsimp only at hp hb hmaj hmin hpat
  subst hp
  subst hb
  refine ⟨?_, ?_, ?_⟩
  · simp only [get_next_tag, h, bump_version, Nat.mod_eq_of_lt hmaj]
  · simp only [get_next_tag, h, bump_version, Nat.mod_eq_of_lt hmin]
  · simp only [get_next_tag, h, bump_version, Nat.mod_eq_of_lt hpat]

/-- C4 witness: from tags 1.0.0, 1.1.0, 2.0.0 the next versions are 3.0.0
(Major), 2.1.0 (Minor) and 2.0.1 (Patch). -/
theorem c4_next_version_bump_witness :
    get_next_tag .Major ["1.0.0", "1.1.0", "2.0.0"] = .ok ⟨3, 0, 0, "", ""⟩ ∧
    get_next_tag .Minor ["1.0.0", "1.1.0", "2.0.0"] = .ok ⟨2, 1, 0, "", ""⟩ ∧
    get_next_tag .Patch ["1.0.0", "1.1.0", "2.0.0"] = .ok ⟨2, 0, 1, "", ""⟩ :=
  ⟨(c4_next_version_bump ["1.0.0", "1.1.0", "2.0.0"] ⟨2, 0, 0, "", ""⟩ rfl rfl rfl
      (by decide) (by decide) (by decide)).1,
   (c4_next_version_bump ["1.0.0", "1.1.0", "2.0.0"] ⟨2, 0, 0, "", ""⟩ rfl rfl rfl
      (by decide) (by decide) (by decide)).2.1,
   (c4_next_version_bump ["1.0.0", "1.1.0", "2.0.0"] ⟨2, 0, 0, "", ""⟩ rfl rfl rfl
      (by decide) (by decide) (by decide)).2.2⟩

/-- C4 counterexample: the tag 18446744073709551615.0.0 (major =
u64::MAX, accepted by the semver parser) is the maximum valid tag and is
a bare triple, but the Major bump wraps the u64 to 0, so the program
returns 0.0.0 and not (T.major+1, 0, 0) as the unrestricted claim
demands. -/
theorem c4_next_version_counterexample :
    get_last_tag ["18446744073709551615.0.0"]
      = .ok ⟨18446744073709551615, 0, 0, "", ""⟩ ∧
    get_next_tag .Major ["18446744073709551615.0.0"] = .ok ⟨0, 0, 0, "", ""⟩ ∧
    (Version.mk 0 0 0 "" "") ≠ ⟨18446744073709551615 + 1, 0, 0, "", ""⟩ :=
  ⟨rfl, rfl, by decide⟩

/-- C5: when no tag parses as a semantic version, the next-version
computation returns Ok 1.0.0 — the absence of valid tags is handled, not
an error, and no bump is applied to the baseline. -/
theorem c5_no_valid_tags_baseline (tags : List String) (t : SemverType)
    (h : ∀ s ∈ tags, Version.parse s = none) :
    get_next_tag t tags = .ok ⟨1, 0, 0, "", ""⟩ := by
  have hf : tags.filterMap Version.parse = [] := List.filterMap_eq_nil_iff.mpr h
  simp [get_next_tag, get_last_tag, hf, max_by_semver]

/-- C5 witness: the unparsable tags "latest" and "" give 1.0.0. -/
theorem c5_no_valid_tags_baseline_witness :
    get_next_tag .Minor ["latest", ""] = .ok ⟨1, 0, 0, "", ""⟩ :=
  c5_no_valid_tags_baseline ["latest", ""] .Minor (by decide)

/-- C6: removing the non-parsable tag strings from the tag list does not
change the computed next version. -/
theorem c6_unparsable_tags_ignored (tags : List String) (t : SemverType) :
    get_next_tag t (tags.filter fun s => (Version.parse s).isSome)
      = get_next_tag t tags := by
  simp [get_next_tag, get_last_tag, filterMap_parse_filter]

/-- C7: once a pipeline is located, if every job whose name contains the
environment's deploy job name already has status Success or Failed, the
deploy operation returns success and plays no job. -/
theorem c7_no_matching_job_ok (w : DeployWorld) (fuel pid : Nat)
    (hpid : get_last_pipeline_id w.polls = .ok pid)
    (hjobs : ∀ j ∈ w.pipeline_jobs pid,
      str_contains j.name w.env.get_deploy_job_name = true →
      j.status = StatusState.Success ∨ j.status = StatusState.Failed) :
    deploy w fuel = some (.ok (), []) := by
  have hfind : (w.pipeline_jobs pid).find? (fun j =>
      str_contains j.name w.env.get_deploy_job_name &&
      decide (j.status ≠ StatusState.Failed) &&
      decide (j.status ≠ StatusState.Success)) = none := by
    rw [List.find?_eq_none]
    intro j hj hp
    simp only [Bool.and_eq_true, decide_eq_true_eq] at hp
    obtain ⟨⟨ha, hb⟩, hc⟩ := hp
    rcases hjobs j hj ha with hS | hF
    · exact hc hS
    · exact hb hF
  simp only [deploy, hpid]
  rw [hfind]

/-- C7 witness: a pipeline whose matching jobs are already Success and
Failed yields success with no job played. -/
theorem c7_no_matching_job_ok_witness :
    deploy
      ⟨Environment.Production, fun _ => [⟨5, "running"⟩],
        fun _ => [⟨1, StatusState.Success, "deploy_prod"⟩,
          ⟨2, StatusState.Failed, "pre deploy_prod post"⟩],
        fun _ => StatusState.Created⟩ 0 = some (.ok (), []) :=
  c7_no_matching_job_ok _ 0 5 rfl (by decide)

/-- C8: the staging push sends exactly one ref, the develop branch, and no
tag ref; the production push sends the two long-lived branch refs plus a
tag ref for every local tag, and nothing else. -/
theorem c8_push_refs (master develop : String) (tags : List String) :
    push .Staging master develop tags = [ref_by_branch develop] ∧
    (push .Staging master develop tags).length = 1 ∧
    (∀ s ∈ tags, ref_by_tag s ∉ push .Staging master develop tags) ∧
    push .Production master develop tags =
      [ref_by_branch master, ref_by_branch develop] ++ tags.map ref_by_tag := by
  refine ⟨rfl, rfl, ?_, rfl⟩
  intro s _ hmem
  simp [push, push_staging] at hmem
  exact ref_tag_ne_branch s develop hmem

/-- C8 witness: concrete staging push with one tag present. -/
theorem c8_push_refs_witness :
    push .Staging "master" "develop" ["1.0.0"] = [ref_by_branch "develop"] ∧
    ref_by_tag "1.0.0" ∉ push .Staging "master" "develop" ["1.0.0"] :=
  ⟨(c8_push_refs "master" "develop" ["1.0.0"]).1,
   (c8_push_refs "master" "develop" ["1.0.0"]).2.2.1 "1.0.0" (by decide)⟩

/-- C9: declining the production confirmation gives the UserCancelled
error and dismissing it gives the UserAborted error, both distinct from
each other and from the technical error variants, and in both cases no
external git command runs, so the repository is untouched. -/
theorem c9_user_cancel (tags : List String) (t : SemverType) (develop : String) :
    create_production_release tags t develop (some false) = (.error .UserCancelled, []) ∧
    create_production_release tags t develop none = (.error .UserAborted, []) ∧
    WrError.UserCancelled ≠ WrError.UserAborted ∧
    (∀ e ∈ [WrError.CommandFailed, WrError.GitOperationFailed, WrError.External,
        WrError.GitlabConnectionFailed, WrError.PipelineNotFound, WrError.NoTagFound],
      WrError.UserCancelled ≠ e ∧ WrError.UserAborted ≠ e) :=
  ⟨rfl, rfl, by decide, by decide⟩

/-- C9 witness: a concrete declined confirmation. -/
theorem c9_user_cancel_witness :
    create_production_release [] .Patch "develop" (some false)
      = (.error .UserCancelled, []) ∧
    WrError.UserCancelled ≠ WrError.External :=
  ⟨(c9_user_cancel [] .Patch "develop").1,
   ((c9_user_cancel [] .Patch "develop").2.2.2 WrError.External (by decide)).1⟩

/-- C10: the bump touches only the numeric fields — whatever pre-release
or build metadata the maximum tag carries is preserved in the next
version, which is therefore not a bare triple when the maximum was
not. -/
theorem c10_metadata_preserved (tags : List String) (t : SemverType) (v : Version)
    (h : get_last_tag tags = .ok v) :
    ∃ w : Version, get_next_tag t tags = .ok w ∧ w.pre = v.pre ∧ w.build = v.build ∧
      ((v.pre ≠ "" ∨ v.build ≠ "") → (w.pre ≠ "" ∨ w.build ≠ "")) := by
  have hp : (bump_version t v).pre = v.pre := by cases t <;> rfl
  have hb : (bump_version t v).build = v.build := by cases t <;> rfl
  refine ⟨bump_version t v, by simp [get_next_tag, h], hp, hb, ?_⟩
  rw [hp, hb]
  exact id

/-- C10 witness: tags 1.0.0 and 2.0.0-rc.1 have maximum 2.0.0-rc.1; the
patch bump keeps the rc.1 pre-release. -/
theorem c10_metadata_preserved_witness :
    ∃ w : Version, get_next_tag .Patch ["1.0.0", "2.0.0-rc.1"] = .ok w ∧
      w.pre = "rc.1" ∧ w.build = "" ∧
      (("rc.1" ≠ "" ∨ ("" : String) ≠ "") → (w.pre ≠ "" ∨ w.build ≠ "")) :=
  c10_metadata_preserved ["1.0.0", "2.0.0-rc.1"] .Patch ⟨2, 0, 0, "rc.1", ""⟩ rfl

/-- C1: when none of the 60 pipeline polls sees a pipeline with status
running or skipped, get_last_pipeline_id does fail with the distinct
PipelineNotFound condition, but Release::deploy destructures that result
with an `if let Ok` and falls through, returning success — the deploy
operation does not fail as the claim (and the spec) states. -/
theorem c1_code_bug :
    get_last_pipeline_id (fun _ => []) = .error WrError.PipelineNotFound ∧
    deploy ⟨Environment.Production, fun _ => [], fun _ => [], fun _ => StatusState.Created⟩ 0
      = some (.ok (), []) :=
  ⟨rfl, rfl⟩

end Wr
